import Mathlib

/-!
Verification of the Harum-Semerbak print-alignment engine.

Shallow embedding of `src/modules/pdf_engine.py` and
`src/modules/calibration_preview.py`.  All geometry is carried out over `ℚ`
(the Python code uses IEEE doubles; every concrete input used below is exactly
representable, so the rational model agrees with the program on those inputs).
-/

namespace HarumSemerbak

/-! ## Unit conversion (`pdf_engine.mm`)

ReportLab's `mm` unit is 72/25.4 = 360/127 points per millimetre.
`mm(value) = value * _mm`. -/

/-- Points per millimetre, ReportLab's `units.mm` constant (72 / 25.4). -/
def mmUnit : ℚ := 360 / 127

/-- `pdf_engine.mm`: convert millimetres to points. -/
def mmPt (value : ℚ) : ℚ := value * mmUnit

/-- Inverse conversion, used to read a millimetre position back off a draw
instruction expressed in points. -/
def ptMm (value : ℚ) : ℚ := value / mmUnit

/-! ## ReportLab canvas instructions

The engine's drawing routines emit calls on a ReportLab canvas; we record the
calls the geometry claims are about. -/

/-- One drawing call on the ReportLab canvas. -/
inductive DrawOp where
  /-- `c.drawString(x, y, text)` with `x`, `y` in points. -/
  | drawString (x y : ℚ) (text : String)
  /-- `c.circle(x, y, r, fill=1)` with `x`, `y` in points. -/
  | circle (x y r : ℚ)
  /-- `c.setFont(name, size)`. -/
  | setFont (name : String) (size : ℚ)
  deriving DecidableEq, Repr

/-- A4 width in mm (`pdf_engine.A4_WIDTH_MM`). -/
def A4_WIDTH_MM : ℕ := 210

/-- A4 height in mm (`pdf_engine.A4_HEIGHT_MM`). -/
def A4_HEIGHT_MM : ℕ := 297

/-- Registered CJK font name (`pdf_engine.FONT_NAME`). -/
def FONT_NAME : String := "SimSun"

/-! ## Glyph placement routines (`pdf_engine._draw_vertical_text`,
`pdf_engine._draw_horizontal_text`) -/

/-- `pdf_engine._draw_vertical_text`: one `drawString` per character;
character `i` is drawn at `(mm(x_mm + offset_x), mm(y_start_mm + offset_y) -
mm(i * line_spacing_mm))`.  The `font_size` argument is accepted but unused by
the routine, exactly as in the source. -/
def drawVerticalText (text : String) (xMm yStartMm : ℚ) (fontSize : ℚ)
    (lineSpacingMm offsetX offsetY : ℚ) : List DrawOp :=
  text.toList.enum.map fun p =>
    DrawOp.drawString (mmPt (xMm + offsetX))
      (mmPt (yStartMm + offsetY) - mmPt ((p.1 : ℚ) * lineSpacingMm))
      (String.singleton p.2)

/-- `pdf_engine._draw_horizontal_text`: a single `drawString` of the whole
string at `(mm(x_mm + offset_x), mm(y_mm + offset_y))`; it is issued
unconditionally, even for the empty string, and the routine has no spacing
parameter.  The `font_size` argument is accepted but unused, as in the
source. -/
def drawHorizontalText (text : String) (xMm yMm : ℚ) (fontSize : ℚ)
    (offsetX offsetY : ℚ) : List DrawOp :=
  [DrawOp.drawString (mmPt (xMm + offsetX)) (mmPt (yMm + offsetY)) text]

/-- Millimetre glyph placements computed by a run of engine draw ops: for each
`drawString`, the drawn text together with its anchor position converted back
from points to millimetres. -/
def engineGlyphMm (ops : List DrawOp) : List (String × ℚ × ℚ) :=
  ops.filterMap fun op =>
    match op with
    | DrawOp.drawString x y s => some (s, ptMm x, ptMm y)
    | _ => none

/-! ## Calibration preview (`calibration_preview.py`) -/

/-- `calibration_preview.F4_W` (mm). -/
def F4_W : ℚ := 215

/-- `calibration_preview.F4_H` (mm). -/
def F4_H : ℚ := 330

/-- `CalibrationPreview.SCALE`: pixels per mm. -/
def SCALE : ℚ := 3 / 2

/-- `CalibrationPreview.PAD`: padding around the paper, in pixels. -/
def PAD : ℚ := 30

/-- `CalibrationPreview._mm_to_px`: mm (origin bottom-left, Y up) to canvas
pixels (origin top-left, Y down). -/
def mmToPx (xMm yMm : ℚ) : ℚ × ℚ :=
  (PAD + xMm * SCALE, PAD + (F4_H - yMm) * SCALE)

/-- Inverse of `mmToPx` on the X coordinate. -/
def pxToMmX (px : ℚ) : ℚ := (px - PAD) / SCALE

/-- Inverse of `mmToPx` on the Y coordinate. -/
def pxToMmY (py : ℚ) : ℚ := F4_H - (py - PAD) / SCALE

/-- One item created on the Tkinter canvas by the preview. -/
inductive CanvasItem where
  /-- `cv.create_rectangle(x0, y0, x1, y1, ...)`. -/
  | rect (x0 y0 x1 y1 : ℚ)
  /-- `cv.create_text(x, y, text=s, ...)`. -/
  | text (x y : ℚ) (s : String)
  /-- `cv.create_oval(x0, y0, x1, y1, ...)`. -/
  | oval (x0 y0 x1 y1 : ℚ)
  deriving DecidableEq, Repr

/-- One entry of `calibration_preview.FIELDS`: a field's anchor (mm, from the
paper's bottom-left), orientation, inter-glyph spacing (mm) and sample text. -/
structure PreviewField where
  label : String
  sample : String
  x : ℚ
  y : ℚ
  vertical : Bool
  spacing : ℚ
  color : String
  deriving DecidableEq, Repr

/-- `calibration_preview.FIELDS` — must stay in sync with `pdf_engine.py`. -/
def FIELDS : List PreviewField :=
  [⟨"Panggilan + Mandarin", "母親許門梁氏橋玉", 68, 200, true, 12, "#1565C0"⟩,
   ⟨"Dari + Keterangan", "孝男合家敬奉", 42, 170, true, 12, "#2E7D32"⟩,
   ⟨"Tahun Lunar", "乙巳", 155, 200, true, 14, "#C62828"⟩,
   ⟨"Bulan Lunar", "正月", 140, 80, false, 6, "#6A1B9A"⟩,
   ⟨"Hari Lunar", "十五", 170, 55, false, 6, "#E65100"⟩]

/-- `half = 5.5 * SCALE`: half the side of a glyph marker box, pixels. -/
def halfBox : ℚ := (11 / 2) * SCALE

/-- The per-glyph canvas items emitted by the loop inside
`CalibrationPreview._draw_field`: for character `i` of the sample, a dashed
box and the character itself, both centred at `_mm_to_px(fx, fy - i*spacing)`
for a vertical field and `_mm_to_px(fx + i*spacing, fy)` for a horizontal
field, where `fx = field.x + ox` and `fy = field.y + oy`. -/
def drawFieldMarks (f : PreviewField) (ox oy : ℚ) : List CanvasItem :=
  if f.vertical then
    f.sample.toList.enum.flatMap fun p =>
      [CanvasItem.rect ((mmToPx (f.x + ox) (f.y + oy - (p.1 : ℚ) * f.spacing)).1 - halfBox)
         ((mmToPx (f.x + ox) (f.y + oy - (p.1 : ℚ) * f.spacing)).2 - halfBox)
         ((mmToPx (f.x + ox) (f.y + oy - (p.1 : ℚ) * f.spacing)).1 + halfBox)
         ((mmToPx (f.x + ox) (f.y + oy - (p.1 : ℚ) * f.spacing)).2 + halfBox),
       CanvasItem.text (mmToPx (f.x + ox) (f.y + oy - (p.1 : ℚ) * f.spacing)).1
         (mmToPx (f.x + ox) (f.y + oy - (p.1 : ℚ) * f.spacing)).2 (String.singleton p.2)]
  else
    f.sample.toList.enum.flatMap fun p =>
      [CanvasItem.rect ((mmToPx (f.x + ox + (p.1 : ℚ) * f.spacing) (f.y + oy)).1 - halfBox)
         ((mmToPx (f.x + ox + (p.1 : ℚ) * f.spacing) (f.y + oy)).2 - halfBox)
         ((mmToPx (f.x + ox + (p.1 : ℚ) * f.spacing) (f.y + oy)).1 + halfBox)
         ((mmToPx (f.x + ox + (p.1 : ℚ) * f.spacing) (f.y + oy)).2 + halfBox),
       CanvasItem.text (mmToPx (f.x + ox + (p.1 : ℚ) * f.spacing) (f.y + oy)).1
         (mmToPx (f.x + ox + (p.1 : ℚ) * f.spacing) (f.y + oy)).2 (String.singleton p.2)]

/-- `CalibrationPreview._draw_field`: the glyph markers followed by the field's
name label (placed beside the first glyph). -/
def drawField (f : PreviewField) (ox oy : ℚ) : List CanvasItem :=
  drawFieldMarks f ox oy ++
    (if f.vertical then
      [CanvasItem.text ((mmToPx (f.x + ox) (f.y + oy)).1 + 10 * SCALE)
        ((mmToPx (f.x + ox) (f.y + oy)).2 - 2) f.label]
    else
      [CanvasItem.text (mmToPx (f.x + ox) (f.y + oy)).1
        ((mmToPx (f.x + ox) (f.y + oy)).2 - 8 * SCALE) f.label])

/-- Millimetre glyph placements computed by the preview: for each glyph marker
text item, the drawn character together with its centre converted back from
canvas pixels to millimetres. -/
def previewGlyphMm (items : List CanvasItem) : List (String × ℚ × ℚ) :=
  items.filterMap fun it =>
    match it with
    | CanvasItem.text x y s => some (s, pxToMmX x, pxToMmY y)
    | _ => none

/-- The engine's drawing routine for a field specification, as `generate_pdf`
invokes it: the vertical routine for vertical fields, the horizontal routine
for horizontal ones. -/
def engineFieldOps (f : PreviewField) (value : String) (fontSize ox oy : ℚ) :
    List DrawOp :=
  if f.vertical then drawVerticalText value f.x f.y fontSize f.spacing ox oy
  else drawHorizontalText value f.x f.y fontSize ox oy

/-! ## General placement lemmas -/

theorem mmUnit_ne_zero : mmUnit ≠ 0 := by norm_num [mmUnit]

theorem ptMm_mmPt (v : ℚ) : ptMm (mmPt v) = v := by
  unfold ptMm mmPt
  exact mul_div_cancel_right₀ v mmUnit_ne_zero

theorem ptMm_mmPt_sub (a b : ℚ) : ptMm (mmPt a - mmPt b) = a - b := by
  unfold ptMm mmPt
  rw [← sub_mul]
  exact mul_div_cancel_right₀ _ mmUnit_ne_zero

theorem SCALE_ne_zero : SCALE ≠ 0 := by norm_num [SCALE]

theorem pxToMmX_mmToPx (a b : ℚ) : pxToMmX (mmToPx a b).1 = a := by
  unfold pxToMmX mmToPx
  rw [add_sub_cancel_left, mul_div_cancel_right₀ _ SCALE_ne_zero]

theorem pxToMmY_mmToPx (a b : ℚ) : pxToMmY (mmToPx a b).2 = b := by
  unfold pxToMmY mmToPx
  rw [add_sub_cancel_left, mul_div_cancel_right₀ _ SCALE_ne_zero, sub_sub_cancel]

theorem engineGlyphMm_map_drawString {α : Type} (l : List α) (X Y : α → ℚ)
    (S : α → String) :
    engineGlyphMm (l.map fun a => DrawOp.drawString (X a) (Y a) (S a)) =
      l.map fun a => (S a, ptMm (X a), ptMm (Y a)) := by
  induction l with
  | nil => rfl
  | cons a l ih =>
    simp only [List.map_cons, engineGlyphMm, List.filterMap_cons] at ih ⊢
    exact congrArg _ ih

theorem previewGlyphMm_flatMap_marks {α : Type} (l : List α) (C : α → ℚ × ℚ)
    (S : α → String) :
    previewGlyphMm (l.flatMap fun a =>
      [CanvasItem.rect ((C a).1 - halfBox) ((C a).2 - halfBox)
         ((C a).1 + halfBox) ((C a).2 + halfBox),
       CanvasItem.text (C a).1 (C a).2 (S a)]) =
      l.map fun a => (S a, pxToMmX (C a).1, pxToMmY (C a).2) := by
  induction l with
  | nil => rfl
  | cons a l ih =>
    simp only [List.flatMap_cons, List.map_cons, previewGlyphMm,
      List.filterMap_append, List.filterMap_cons, List.filterMap_nil] at ih ⊢
    rw [ih]
    rfl

/-- The engine's vertical routine, with each draw position read back in mm:
character `i` of the text lands at `(x + ox, y + oy - i*s)`. -/
theorem engineGlyphMm_vertical (text : String) (x y fs s ox oy : ℚ) :
    engineGlyphMm (drawVerticalText text x y fs s ox oy) =
      text.toList.enum.map fun p =>
        (String.singleton p.2, x + ox, y + oy - (p.1 : ℚ) * s) := by
  unfold drawVerticalText
  rw [engineGlyphMm_map_drawString]
  refine List.map_congr_left fun p _ => ?_
  rw [ptMm_mmPt, ptMm_mmPt_sub]

/-- The preview's vertical marker run, with each marker centre read back in
mm: marker `i` sits at `(x + ox, y + oy - i*s)`. -/
theorem previewGlyphMm_vertical (lbl sample clr : String) (x y s ox oy : ℚ) :
    previewGlyphMm (drawFieldMarks ⟨lbl, sample, x, y, true, s, clr⟩ ox oy) =
      sample.toList.enum.map fun p =>
        (String.singleton p.2, x + ox, y + oy - (p.1 : ℚ) * s) := by
  unfold drawFieldMarks
  rw [if_pos rfl]
  rw [previewGlyphMm_flatMap_marks _
    (fun p : ℕ × Char =>
      mmToPx ((⟨lbl, sample, x, y, true, s, clr⟩ : PreviewField).x + ox)
        ((⟨lbl, sample, x, y, true, s, clr⟩ : PreviewField).y + oy -
          (p.1 : ℚ) * (⟨lbl, sample, x, y, true, s, clr⟩ : PreviewField).spacing))
    (fun p : ℕ × Char => String.singleton p.2)]
  refine List.map_congr_left fun p _ => ?_
  rw [pxToMmX_mmToPx, pxToMmY_mmToPx]

/-- The preview's horizontal marker run, with each marker centre read back in
mm: marker `i` sits at `(x + ox + i*s, y + oy)`. -/
theorem previewGlyphMm_horizontal (lbl sample clr : String) (x y s ox oy : ℚ) :
    previewGlyphMm (drawFieldMarks ⟨lbl, sample, x, y, false, s, clr⟩ ox oy) =
      sample.toList.enum.map fun p =>
        (String.singleton p.2, x + ox + (p.1 : ℚ) * s, y + oy) := by
  unfold drawFieldMarks
  rw [if_neg (by simp)]
  rw [previewGlyphMm_flatMap_marks _
    (fun p : ℕ × Char =>
      mmToPx ((⟨lbl, sample, x, y, false, s, clr⟩ : PreviewField).x + ox +
          (p.1 : ℚ) * (⟨lbl, sample, x, y, false, s, clr⟩ : PreviewField).spacing)
        ((⟨lbl, sample, x, y, false, s, clr⟩ : PreviewField).y + oy))
    (fun p : ℕ × Char => String.singleton p.2)]
  refine List.map_congr_left fun p _ => ?_
  rw [pxToMmX_mmToPx, pxToMmY_mmToPx]

/-- The engine's horizontal routine, read back in mm: a single placement of
the whole string at `(x + ox, y + oy)`. -/
theorem engineGlyphMm_horizontal (text : String) (x y fs ox oy : ℚ) :
    engineGlyphMm (drawHorizontalText text x y fs ox oy) =
      [(text, x + ox, y + oy)] := by
  unfold drawHorizontalText engineGlyphMm
  simp only [List.filterMap_cons, List.filterMap_nil]
  rw [ptMm_mmPt, ptMm_mmPt]

/-! ## Claims C1–C4: placement geometry -/

/-- C1, counterexample: for the horizontal field "Bulan Lunar" (anchor
(140, 80), spacing 6) with the 2-character value "ab" and offset (0, 0), the
Page Renderer's drawing routine issues a single `drawString` of the whole run
at (140, 80) while the Calibration Preview places one marker per glyph,
putting glyph 1 at (146, 80): their computed mm glyph placements differ. -/
theorem preview_engine_horizontal_disagree :
    engineGlyphMm
        (engineFieldOps ⟨"Bulan Lunar", "ab", 140, 80, false, 6, "#6A1B9A"⟩
          "ab" 14 0 0) ≠
      previewGlyphMm
        (drawFieldMarks ⟨"Bulan Lunar", "ab", 140, 80, false, 6, "#6A1B9A"⟩ 0 0) := by
  have h1 : engineFieldOps
      (⟨"Bulan Lunar", "ab", 140, 80, false, 6, "#6A1B9A"⟩ : PreviewField)
      "ab" 14 0 0 = drawHorizontalText "ab" 140 80 14 0 0 := by
    unfold engineFieldOps
    rfl
  rw [h1, engineGlyphMm_horizontal, previewGlyphMm_horizontal]
  intro h
  have hlen := congrArg List.length h
  simp [String.toList] at hlen

/-- C1 (amended): for every vertical field specification (anchor, spacing),
every field value string and every offset, the Calibration Preview's
field-drawing routine and the Page Renderer's vertical drawing routine compute
identical glyph positions in millimetres; in particular, for a field anchored
at (68, 200) with spacing 12, a 2-character text and offset (0, 0), both place
glyph 0 at (68, 200) and glyph 1 at (68, 188).  (For horizontal fields the two
components disagree beyond glyph 0; see the counterexample.) -/
theorem preview_matches_engine_vertical :
    (∀ (lbl clr value : String) (x y s fs ox oy : ℚ),
      engineGlyphMm (engineFieldOps ⟨lbl, value, x, y, true, s, clr⟩ value fs ox oy) =
        previewGlyphMm (drawFieldMarks ⟨lbl, value, x, y, true, s, clr⟩ ox oy)) ∧
    engineGlyphMm (drawVerticalText "ab" 68 200 14 12 0 0) =
      [("a", 68, 200), ("b", 68, 188)] ∧
    previewGlyphMm
        (drawFieldMarks ⟨"Panggilan + Mandarin", "ab", 68, 200, true, 12, "#1565C0"⟩ 0 0) =
      [("a", 68, 200), ("b", 68, 188)] := by
  refine ⟨fun lbl clr value x y s fs ox oy => ?_, ?_, ?_⟩
  · have h1 : engineFieldOps (⟨lbl, value, x, y, true, s, clr⟩ : PreviewField)
        value fs ox oy = drawVerticalText value x y fs s ox oy := by
      unfold engineFieldOps
      rfl
    rw [h1, engineGlyphMm_vertical, previewGlyphMm_vertical]
  · rw [engineGlyphMm_vertical]
    simp [String.toList, List.enum, List.enumFrom]
    norm_num
    decide
  · rw [previewGlyphMm_vertical]
    simp [String.toList, List.enum, List.enumFrom]
    norm_num
    decide

/-- C2: for every string, anchor `(x, y)`, spacing `S`, offset
`(ox, oy)` and index `i` below the string's length, the renderer's vertical
routine draws character `i` at points position
`(mm(x + ox), mm(y + oy) - mm(i*S))`, i.e. at millimetre position
`(x + ox, y + oy - i*S)`, and the preview's `i`-th vertical marker sits at the
same millimetre position. -/
theorem vertical_glyph_positions (lbl clr text : String)
    (x y s fs ox oy : ℚ) (i : ℕ) (h : i < text.length) :
    ∃ ch : Char, text.toList[i]? = some ch ∧
      (drawVerticalText text x y fs s ox oy)[i]? =
        some (DrawOp.drawString (mmPt (x + ox))
          (mmPt (y + oy) - mmPt ((i : ℚ) * s)) (String.singleton ch)) ∧
      (engineGlyphMm (drawVerticalText text x y fs s ox oy))[i]? =
        some (String.singleton ch, x + ox, y + oy - (i : ℚ) * s) ∧
      (previewGlyphMm (drawFieldMarks ⟨lbl, text, x, y, true, s, clr⟩ ox oy))[i]? =
        some (String.singleton ch, x + ox, y + oy - (i : ℚ) * s) := by
  have hl : i < text.toList.length := h
  refine ⟨text.toList[i], List.getElem?_eq_getElem hl, ?_, ?_, ?_⟩
  · unfold drawVerticalText
    simp [List.enum, List.getElem?_enumFrom, List.getElem?_eq_getElem hl]
    exact ⟨text.toList[i], List.getElem?_eq_getElem hl, rfl⟩
  · rw [engineGlyphMm_vertical]
    simp [List.enum, List.getElem?_enumFrom, List.getElem?_eq_getElem hl]
    exact ⟨text.toList[i], List.getElem?_eq_getElem hl, rfl⟩
  · rw [previewGlyphMm_vertical]
    simp [List.enum, List.getElem?_enumFrom, List.getElem?_eq_getElem hl]
    exact ⟨text.toList[i], List.getElem?_eq_getElem hl, rfl⟩

/-- C2, witness: the vertical-placement formula instantiated at the field
anchored at (68, 200) with spacing 12, text "ab", offset (0, 0), index 1. -/
theorem vertical_glyph_positions_witness :
    (1 < ("ab" : String).length) ∧
    ∃ ch : Char, ("ab" : String).toList[1]? = some ch ∧
      (drawVerticalText "ab" 68 200 14 12 0 0)[1]? =
        some (DrawOp.drawString (mmPt (68 + 0))
          (mmPt (200 + 0) - mmPt ((1 : ℚ) * 12)) (String.singleton ch)) ∧
      (engineGlyphMm (drawVerticalText "ab" 68 200 14 12 0 0))[1]? =
        some (String.singleton ch, 68 + 0, 200 + 0 - (1 : ℚ) * 12) ∧
      (previewGlyphMm (drawFieldMarks ⟨"L", "ab", 68, 200, true, 12, "c"⟩ 0 0))[1]? =
        some (String.singleton ch, 68 + 0, 200 + 0 - (1 : ℚ) * 12) :=
  ⟨by decide, vertical_glyph_positions "L" "c" "ab" 68 200 12 14 0 0 1 (by decide)⟩

/-- C3, counterexample: for the 2-character string "ab" placed horizontally at
anchor (140, 80) with offset (0, 0), the renderer does not produce one
placement per character at `(x + i*S, y)`: it issues a single `drawString` of
the whole run at the anchor. -/
theorem horizontal_per_char_refuted :
    engineGlyphMm (drawHorizontalText "ab" 140 80 14 0 0) ≠
      [("a", 140, 80), ("b", 146, 80)] := by
  rw [engineGlyphMm_horizontal]
  intro h
  have hlen := congrArg List.length h
  simp at hlen

/-- C3 (amended): the renderer's horizontal routine produces exactly one
drawing call, placing the whole run at millimetre position
`(x + ox, y + oy)` with no per-glyph spacing (the `i > 0` glyph advances are
left to the font engine), while the preview's horizontal marker run does place
marker `i` at `(x + ox + i*S, y + oy)` with Y constant. -/
theorem horizontal_run_placement :
    (∀ (text : String) (x y fs ox oy : ℚ),
      drawHorizontalText text x y fs ox oy =
        [DrawOp.drawString (mmPt (x + ox)) (mmPt (y + oy)) text] ∧
      engineGlyphMm (drawHorizontalText text x y fs ox oy) =
        [(text, x + ox, y + oy)]) ∧
    ∀ (lbl clr text : String) (x y s ox oy : ℚ) (i : ℕ), i < text.length →
      ∃ ch : Char, text.toList[i]? = some ch ∧
        (previewGlyphMm (drawFieldMarks ⟨lbl, text, x, y, false, s, clr⟩ ox oy))[i]? =
          some (String.singleton ch, x + ox + (i : ℚ) * s, y + oy) := by
  refine ⟨fun text x y fs ox oy => ⟨rfl, engineGlyphMm_horizontal _ _ _ _ _ _⟩,
    fun lbl clr text x y s ox oy i h => ?_⟩
  have hl : i < text.toList.length := h
  refine ⟨text.toList[i], List.getElem?_eq_getElem hl, ?_⟩
  rw [previewGlyphMm_horizontal]
  simp [List.enum, List.getElem?_enumFrom, List.getElem?_eq_getElem hl]
  exact ⟨text.toList[i], List.getElem?_eq_getElem hl, rfl⟩

/-- C3 (amended), witness: instantiated at the horizontal field anchored at
(140, 80) with spacing 6, text "ab", offset (0, 0), index 1. -/
theorem horizontal_run_placement_witness :
    (1 < ("ab" : String).length) ∧
    ∃ ch : Char, ("ab" : String).toList[1]? = some ch ∧
      (previewGlyphMm (drawFieldMarks ⟨"L", "ab", 140, 80, false, 6, "c"⟩ 0 0))[1]? =
        some (String.singleton ch, 140 + 0 + (1 : ℚ) * 6, 80 + 0) :=
  ⟨by decide, horizontal_run_placement.2 "L" "c" "ab" 140 80 6 0 0 1 (by decide)⟩

/-- C4, counterexample: drawing the empty string horizontally still performs a
drawing call — the routine unconditionally issues one `drawString` carrying
the empty string. -/
theorem empty_horizontal_still_draws :
    drawHorizontalText "" 140 80 14 0 0 ≠ [] := by
  unfold drawHorizontalText
  simp

/-- C4 (amended): for every anchor, spacing and offset, the empty string
yields an empty glyph-placement sequence; the vertical routine performs no
drawing call at all, while the horizontal routine still issues exactly one
`drawString` call whose text is empty (drawing no glyph). -/
theorem empty_string_drawing :
    ∀ (x y fs s ox oy : ℚ),
      drawVerticalText "" x y fs s ox oy = [] ∧
      engineGlyphMm (drawVerticalText "" x y fs s ox oy) = [] ∧
      drawHorizontalText "" x y fs ox oy =
        [DrawOp.drawString (mmPt (x + ox)) (mmPt (y + oy)) ""] := by
  intro x y fs s ox oy
  exact ⟨rfl, rfl, rfl⟩

/-! ## Offset nudge control (`CalibrationPreview._nudge`)

`_nudge` reads the axis's entry text with `float(entry.get() or "0")` (an
unparseable text falls back to `0.0` via `except ValueError`), adds `delta`,
and writes the sum back with `f"{val:.1f}"` — one decimal place, with CPython
rounding the value to the nearest tenth, ties to even.  The entry is modelled
by the rational it parses to (`none` for text `float` rejects); every value
handled in the claims below is exactly representable as an IEEE double, so the
rational model computes the same entry strings as the program. -/

/-- Round to the nearest integer, ties to even — the rounding CPython's
`f"{val:.1f}"` applies (to the tenths digit) when writing the entry back. -/
def roundHalfEven (q : ℚ) : ℤ :=
  if q - ⌊q⌋ < 1 / 2 then ⌊q⌋
  else if q - ⌊q⌋ > 1 / 2 then ⌊q⌋ + 1
  else if ⌊q⌋ % 2 = 0 then ⌊q⌋ else ⌊q⌋ + 1

/-- The value the offset entry holds after `f"{val:.1f}"` writes `val` back:
`val` rounded to one decimal place (ties to even). -/
def fmt1 (val : ℚ) : ℚ := (roundHalfEven (val * 10) : ℚ) / 10

/-- `CalibrationPreview._nudge` on one axis: parse the entry (`none`, i.e.
unparseable text, is treated as `0.0`), add `delta`, format to one decimal.
The result is the value the entry shows afterwards (and, via `_on_update`,
the offset used for drawing). -/
def nudge (entry : Option ℚ) (delta : ℚ) : ℚ := fmt1 (entry.getD 0 + delta)

theorem roundHalfEven_intCast (k : ℤ) : roundHalfEven (k : ℚ) = k := by
  unfold roundHalfEven
  rw [Int.floor_intCast]
  norm_num

theorem fmt1_of_mul_ten_int (q : ℚ) (k : ℤ) (h : q * 10 = (k : ℚ)) :
    fmt1 q = (k : ℚ) / 10 := by
  unfold fmt1
  rw [h, roundHalfEven_intCast]

/-- Values already lying on the one-decimal grid are fixed by formatting. -/
theorem fmt1_tenths (k : ℤ) : fmt1 ((k : ℚ) / 10) = (k : ℚ) / 10 :=
  fmt1_of_mul_ten_int _ k (by rw [div_mul_cancel₀]; norm_num)

/-! ## Claim C9: nudge accumulation -/

/-- C9, counterexample: starting from an offset entry reading `0.25` (a value
the operator can type freely), two `+0.5` nudges leave the entry at `1.3`
(`0.25 + 0.5 = 0.75` is written back as `0.8`, then `0.8 + 0.5 = 1.3`), while
a single `+1.0` nudge leaves it at `1.2` (`1.25` rounds to even).  All values
involved are exact binary doubles, so the program behaves identically. -/
theorem nudge_twice_ne_nudge_once :
    nudge (some (nudge (some (1 / 4)) (1 / 2))) (1 / 2) ≠
      nudge (some (1 / 4)) 1 := by
  have h1 : nudge (some (1 / 4 : ℚ)) (1 / 2) = 4 / 5 := by
    show fmt1 ((1 / 4 : ℚ) + 1 / 2) = 4 / 5
    unfold fmt1
    have h : ((1 / 4 : ℚ) + 1 / 2) * 10 = 15 / 2 := by norm_num
    rw [h]
    unfold roundHalfEven
    norm_num
  have h2 : nudge (some (4 / 5 : ℚ)) (1 / 2) = 13 / 10 := by
    show fmt1 ((4 / 5 : ℚ) + 1 / 2) = 13 / 10
    rw [fmt1_of_mul_ten_int _ 13 (by norm_num)]
    norm_num
  have h3 : nudge (some (1 / 4 : ℚ)) 1 = 6 / 5 := by
    show fmt1 ((1 / 4 : ℚ) + 1) = 6 / 5
    unfold fmt1
    have h : ((1 / 4 : ℚ) + 1) * 10 = 25 / 2 := by norm_num
    rw [h]
    unfold roundHalfEven
    norm_num
  rw [h1, h2, h3]
  norm_num

/-- C9 (amended): whenever the entry holds a value on the one-decimal grid —
the only values the nudge controls themselves ever write back — applying
`+0.5` twice leaves the offset entry in the same state as a single `+1.0`,
namely the starting value plus one. -/
theorem nudge_half_twice_eq_nudge_one (k : ℤ) (v : ℚ) (hv : v = (k : ℚ) / 10) :
    nudge (some (nudge (some v) (1 / 2))) (1 / 2) = nudge (some v) 1 ∧
      nudge (some v) 1 = v + 1 := by
  subst hv
  have h5 : ((k : ℚ) / 10 + 1 / 2) = ((k + 5 : ℤ) : ℚ) / 10 := by
    push_cast
    ring
  have h10 : ((k : ℚ) / 10 + 1) = ((k + 10 : ℤ) : ℚ) / 10 := by
    push_cast
    ring
  have hfirst : nudge (some ((k : ℚ) / 10)) (1 / 2) = (k : ℚ) / 10 + 1 / 2 := by
    show fmt1 ((k : ℚ) / 10 + 1 / 2) = (k : ℚ) / 10 + 1 / 2
    rw [h5, fmt1_tenths]
  constructor
  · rw [hfirst]
    show fmt1 ((k : ℚ) / 10 + 1 / 2 + 1 / 2) = fmt1 ((k : ℚ) / 10 + 1)
    have harg : (k : ℚ) / 10 + 1 / 2 + 1 / 2 = (k : ℚ) / 10 + 1 := by ring
    rw [harg]
  · show fmt1 ((k : ℚ) / 10 + 1) = (k : ℚ) / 10 + 1
    rw [h10, fmt1_tenths]

/-- C9 (amended), witness: starting entry `0.3`, i.e. `3/10`. -/
theorem nudge_half_twice_eq_nudge_one_witness :
    ((3 : ℚ) / 10 = ((3 : ℤ) : ℚ) / 10) ∧
      (nudge (some (nudge (some ((3 : ℚ) / 10)) (1 / 2))) (1 / 2) =
          nudge (some ((3 : ℚ) / 10)) 1 ∧
        nudge (some ((3 : ℚ) / 10)) 1 = (3 : ℚ) / 10 + 1) :=
  ⟨by norm_num, nudge_half_twice_eq_nudge_one 3 ((3 : ℚ) / 10) (by norm_num)⟩

/-! ## Claim C10: nudge on unparseable entry text -/

/-- C10: if the entry text is not parseable as a float (`none`), `_nudge`
treats the current value as `0.0` and sets the entry to `delta` formatted to
one decimal place — it never raises; in particular each of the four widget
deltas `±0.5`, `±1` lands exactly on `delta`. -/
theorem nudge_unparseable_treats_as_zero :
    (∀ delta : ℚ, nudge none delta = fmt1 (0 + delta) ∧
      nudge none delta = nudge (some 0) delta) ∧
    nudge none (1 / 2) = 1 / 2 ∧ nudge none (-(1 / 2)) = -(1 / 2) ∧
    nudge none 1 = 1 ∧ nudge none (-1) = -1 := by
  refine ⟨fun delta => ⟨rfl, rfl⟩, ?_, ?_, ?_, ?_⟩
  · show fmt1 ((0 : ℚ) + 1 / 2) = 1 / 2
    rw [fmt1_of_mul_ten_int _ 5 (by norm_num)]
    norm_num
  · show fmt1 ((0 : ℚ) + -(1 / 2)) = -(1 / 2)
    rw [fmt1_of_mul_ten_int _ (-5) (by norm_num)]
    norm_num
  · show fmt1 ((0 : ℚ) + 1) = 1
    rw [fmt1_of_mul_ten_int _ 10 (by norm_num)]
    norm_num
  · show fmt1 ((0 : ℚ) + -1) = -1
    rw [fmt1_of_mul_ten_int _ (-10) (by norm_num)]
    norm_num

/-! ## `pdf_engine.generate_pdf`: field data and overlay page -/

/-- The field-value map `generate_pdf` consumes: `data.get(key, "")` for each
of the seven keys (absent keys behave as the empty string, so a structure of
strings is an exact model). -/
structure FieldData where
  panggilan : String
  nama_mandarin : String
  dari : String
  keterangan : String
  tahun_lunar : String
  bulan_lunar : String
  hari_lunar : String
  deriving DecidableEq, Repr

/-- The `data` used by the module's self-test block. -/
def sampleData : FieldData :=
  ⟨"母親許門", "梁氏橋玉", "孝男", "合家敬奉", "乙巳", "正月", "十五"⟩

/-- `pengirim_text`: `dari`, extended by `keterangan` when that is truthy
(non-empty). -/
def pengirimText (d : FieldData) : String :=
  if d.keterangan = "" then d.dari else d.dari ++ d.keterangan

/-- The overlay page's draw calls, in the order `generate_pdf` issues them:
five fields at the hard-coded anchors of `pdf_engine.py`. -/
def overlayOps (d : FieldData) (ox oy : ℚ) : List DrawOp :=
  [DrawOp.setFont FONT_NAME 14] ++
    drawVerticalText (d.panggilan ++ d.nama_mandarin) 68 200 14 12 ox oy ++
  [DrawOp.setFont FONT_NAME 14] ++
    drawVerticalText (pengirimText d) 42 170 14 12 ox oy ++
  [DrawOp.setFont FONT_NAME 16] ++
    drawVerticalText d.tahun_lunar 155 200 16 14 ox oy ++
  [DrawOp.setFont FONT_NAME 14] ++
    drawHorizontalText d.bulan_lunar 140 80 14 ox oy ++
  [DrawOp.setFont FONT_NAME 14] ++
    drawHorizontalText d.hari_lunar 170 55 14 ox oy

/-! ## `generate_pdf`: effects model

`generate_pdf` touches the file system and module state; the embedding makes
those inputs explicit and returns both the result and which of the two files
it writes (`output_path` and `output_path + ".overlay.tmp"`) are left on
disk.  Control flow mirrors the source exactly:
`_register_font` raises `FileNotFoundError` (re-raised verbatim by
`except FileNotFoundError: raise`) before the overlay canvas is created;
otherwise the overlay is drawn and saved, `_merge_template_and_overlay` uses
the template as background iff `os.path.isfile(_TEMPLATE_PATH)` and writes the
output; on success the overlay temp file is then removed (`os.remove`), while
any exception during merge/write propagates as
`RuntimeError("Gagal membuat PDF: ...")` from the `except Exception` clause,
which performs no cleanup. -/

/-- Process and file-system facts `generate_pdf` depends on. -/
structure PdfEnv where
  /-- Module global `_FONT_REGISTERED`. -/
  fontRegistered : Bool
  /-- Some `_FONT_CANDIDATES` path exists and registers successfully. -/
  fontLocatable : Bool
  /-- `os.path.isfile(_TEMPLATE_PATH)`. -/
  templateExists : Bool
  /-- The merge and output write raise no exception. -/
  mergeWriteOk : Bool
  deriving DecidableEq, Repr

/-- Failures `generate_pdf` can raise. -/
inductive PdfError where
  /-- `FileNotFoundError` from `_register_font`, re-raised verbatim. -/
  | fontNotFound
  /-- `RuntimeError("Gagal membuat PDF: ...")` wrapping any other failure. -/
  | renderError
  deriving DecidableEq, Repr

/-- Which of the two files `generate_pdf` writes are on disk afterwards. -/
structure PdfFiles where
  /-- `output_path + ".overlay.tmp"`. -/
  overlayExists : Bool
  /-- `output_path`. -/
  outputExists : Bool
  deriving DecidableEq, Repr

/-- The produced document: optional template background beneath the overlay
text layer (the text layer is the same overlay page in both modes of
`_merge_template_and_overlay`). -/
structure PdfOutput where
  hasTemplateBackground : Bool
  textOps : List DrawOp
  deriving DecidableEq, Repr

/-- `_register_font` succeeds iff the font was already registered (the
`_FONT_REGISTERED` fast path) or a candidate path registers successfully. -/
def registerFontOk (e : PdfEnv) : Bool := e.fontRegistered || e.fontLocatable

/-- `pdf_engine.generate_pdf` as a function of the environment: the result
and the files left on disk. -/
def generatePdf (e : PdfEnv) (d : FieldData) (ox oy : ℚ) :
    Except PdfError PdfOutput × PdfFiles :=
  if ¬ registerFontOk e then
    (Except.error PdfError.fontNotFound, ⟨false, false⟩)
  else if e.mergeWriteOk then
    (Except.ok ⟨e.templateExists, overlayOps d ox oy⟩, ⟨false, true⟩)
  else
    (Except.error PdfError.renderError, ⟨true, false⟩)

/-! ## Claim C5: missing template degrades gracefully -/

/-- C5: whenever a font can be registered and I/O succeeds, `generate_pdf`
succeeds both with and without the background template, the two outputs carry
the identical text layer (the overlay ops), and only the background differs;
the output file is produced in both cases. -/
theorem missing_template_text_only (e : PdfEnv) (d : FieldData) (ox oy : ℚ)
    (hfont : registerFontOk e = true) (hio : e.mergeWriteOk = true) :
    (generatePdf { e with templateExists := false } d ox oy).1 =
        Except.ok ⟨false, overlayOps d ox oy⟩ ∧
      (generatePdf { e with templateExists := true } d ox oy).1 =
        Except.ok ⟨true, overlayOps d ox oy⟩ ∧
      (generatePdf { e with templateExists := false } d ox oy).2 =
        ⟨false, true⟩ ∧
      (generatePdf { e with templateExists := true } d ox oy).2 =
        ⟨false, true⟩ := by
  have hf : (e.fontRegistered || e.fontLocatable) = true := hfont
  refine ⟨?_, ?_, ?_, ?_⟩ <;> simp [generatePdf, registerFontOk, hf, hio]

/-- C5, witness: a fresh process with a locatable font, working I/O and the
self-test data. -/
theorem missing_template_text_only_witness :
    registerFontOk ⟨false, true, false, true⟩ = true ∧
      (PdfEnv.mk false true false true).mergeWriteOk = true ∧
      (generatePdf { PdfEnv.mk false true false true with templateExists := false }
          sampleData 0 0).1 =
        Except.ok ⟨false, overlayOps sampleData 0 0⟩ ∧
      (generatePdf { PdfEnv.mk false true false true with templateExists := true }
          sampleData 0 0).1 =
        Except.ok ⟨true, overlayOps sampleData 0 0⟩ ∧
      (generatePdf { PdfEnv.mk false true false true with templateExists := false }
          sampleData 0 0).2 = ⟨false, true⟩ ∧
      (generatePdf { PdfEnv.mk false true false true with templateExists := true }
          sampleData 0 0).2 = ⟨false, true⟩ := by
  refine ⟨rfl, rfl, ?_⟩
  have h := missing_template_text_only ⟨false, true, false, true⟩ sampleData 0 0
    rfl rfl
  exact ⟨h.1, h.2.1, h.2.2.1, h.2.2.2⟩

/-! ## Claim C6: unlocatable font fails cleanly -/

/-- C6: in a fresh process (font not yet registered) where no candidate path
yields a font, `generate_pdf` fails with the `FileNotFoundError` and neither
the output file nor the temporary overlay file is created — `_register_font`
raises before the overlay canvas is opened. -/
theorem font_unavailable_no_output (e : PdfEnv) (d : FieldData) (ox oy : ℚ)
    (hreg : e.fontRegistered = false) (hloc : e.fontLocatable = false) :
    (generatePdf e d ox oy).1 = Except.error PdfError.fontNotFound ∧
      (generatePdf e d ox oy).2.outputExists = false ∧
      (generatePdf e d ox oy).2.overlayExists = false := by
  simp [generatePdf, registerFontOk, hreg, hloc]

/-- C6, witness: fresh process, no usable font candidate, template present,
I/O fine. -/
theorem font_unavailable_no_output_witness :
    (PdfEnv.mk false false true true).fontRegistered = false ∧
      (PdfEnv.mk false false true true).fontLocatable = false ∧
      (generatePdf ⟨false, false, true, true⟩ sampleData 0 0).1 =
        Except.error PdfError.fontNotFound ∧
      (generatePdf ⟨false, false, true, true⟩ sampleData 0 0).2.outputExists
        = false ∧
      (generatePdf ⟨false, false, true, true⟩ sampleData 0 0).2.overlayExists
        = false := by
  refine ⟨rfl, rfl, ?_⟩
  have h := font_unavailable_no_output ⟨false, false, true, true⟩
    sampleData 0 0 rfl rfl
  exact ⟨h.1, h.2.1, h.2.2⟩

/-! ## Claim C7: overlay temp file on failure

The spec requires that on any failure during generation the temporary overlay
artifact be cleaned up.  In the source, `os.remove(overlay_path)` sits on the
success path only; both `except` clauses re-raise without removing the file,
so a merge/write failure leaves `output_path + ".overlay.tmp"` on disk. -/

/-- C7, divergence witness: with a registered font but a failing merge/write
step, `generate_pdf` raises the wrapped `RenderError` and the temporary
overlay file remains on disk, contradicting the no-partial-files claim. -/
theorem merge_failure_leaves_overlay_tmp :
    (generatePdf ⟨true, true, true, false⟩ sampleData 0 0).1 =
        Except.error PdfError.renderError ∧
      (generatePdf ⟨true, true, true, false⟩ sampleData 0 0).2.overlayExists
        = true := by
  simp [generatePdf, registerFontOk]

/-! ## `pdf_engine.generate_calibration_pdf` -/

/-- Python `range(0, stop, step)` for positive `step`: `0, step, 2*step, ...`
strictly below `stop`. -/
def pyRange (stop step : ℕ) : List ℕ :=
  (List.range ((stop + step - 1) / step)).map (· * step)

/-- The body of the grid loop at `(x, y)`: a dot, plus a coordinate label when
both coordinates are multiples of 50. -/
def gridCell (x y : ℕ) : List DrawOp :=
  [DrawOp.circle (mmPt (x : ℚ)) (mmPt (y : ℚ)) (1 / 2)] ++
    (if x % 50 = 0 ∧ y % 50 = 0 then
      [DrawOp.drawString (mmPt (x : ℚ) + 2) (mmPt (y : ℚ) + 2)
        (toString x ++ "," ++ toString y)]
    else [])

/-- The nested grid loop of `generate_calibration_pdf`:
`for x in range(0, w + 1, 10): for y in range(0, h + 1, 10): ...`. -/
def calibGridOps (w h : ℕ) : List DrawOp :=
  (pyRange (w + 1) 10).flatMap fun x =>
    (pyRange (h + 1) 10).flatMap fun y => gridCell x y

/-- The full draw-call sequence of `generate_calibration_pdf`: font setup, the
grid loop over the A4 page, then the title line (the only `drawString`
outside the grid loop, and not a coordinate label). -/
def calibrationPdfOps : List DrawOp :=
  [DrawOp.setFont FONT_NAME 6] ++ calibGridOps A4_WIDTH_MM A4_HEIGHT_MM ++
    [DrawOp.setFont FONT_NAME 10,
     DrawOp.drawString (mmPt 10) (mmPt ((A4_HEIGHT_MM : ℚ) - 5))
       "CALIBRATION GRID — A4 (210×297mm) — Titik setiap 10mm"]

/-- Recogniser for grid dots. -/
def isCircle : DrawOp → Bool
  | DrawOp.circle _ _ _ => true
  | _ => false

/-- Recogniser for text draw calls. -/
def isDrawString : DrawOp → Bool
  | DrawOp.drawString _ _ _ => true
  | _ => false

/-! ### Counting lemmas -/

theorem countP_flatMap {α β : Type} (l : List α) (f : α → List β)
    (p : β → Bool) :
    (l.flatMap f).countP p = (l.map fun a => (f a).countP p).sum := by
  induction l with
  | nil => rfl
  | cons a l ih => simp [List.flatMap_cons, List.countP_append, ih]

theorem length_pyRange10 (n : ℕ) : (pyRange (n + 1) 10).length = n / 10 + 1 := by
  simp [pyRange]
  try omega

theorem countP_mult50_map_range (k : ℕ) :
    (List.range k).countP (fun j => j * 10 % 50 == 0) = (k + 4) / 5 := by
  induction k with
  | zero => rfl
  | succ k ih =>
    rw [List.range_succ, List.countP_append, ih]
    by_cases h5 : k % 5 = 0
    · have hx : k * 10 % 50 = 0 := by omega
      simp [List.countP_cons, hx]
      try omega
    · have hx : k * 10 % 50 ≠ 0 := by omega
      simp [List.countP_cons, hx]
      try omega

theorem countMult50_pyRange (n : ℕ) :
    (pyRange (n + 1) 10).countP (fun m => m % 50 == 0) = n / 50 + 1 := by
  unfold pyRange
  rw [List.countP_map]
  have hlen : (n + 1 + 10 - 1) / 10 = n / 10 + 1 := by omega
  rw [hlen]
  have hfun : ((fun m => m % 50 == 0) ∘ (· * 10)) =
      (fun j => j * 10 % 50 == 0) := rfl
  rw [hfun, countP_mult50_map_range]
  omega

theorem sum_map_const_nat {α : Type} (l : List α) (c : ℕ) :
    (l.map fun _ => c).sum = l.length * c := by
  induction l with
  | nil => simp
  | cons a l ih => simp [ih]; ring

theorem sum_map_ite50 (ys : List ℕ) :
    (ys.map fun y => if y % 50 = 0 then 1 else 0).sum =
      ys.countP (fun y => y % 50 == 0) := by
  induction ys with
  | nil => rfl
  | cons y ys ih =>
    by_cases hy : y % 50 = 0 <;> simp [List.countP_cons, hy, ih] <;> omega

theorem sum_map_ite50_const (c : ℕ) (xs : List ℕ) :
    (xs.map fun x => if x % 50 = 0 then c else 0).sum =
      xs.countP (fun x => x % 50 == 0) * c := by
  induction xs with
  | nil => simp
  | cons x xs ih =>
    by_cases hx : x % 50 = 0 <;> simp [List.countP_cons, hx, ih] <;> ring

theorem countP_gridCell_circle (x y : ℕ) : (gridCell x y).countP isCircle = 1 := by
  unfold gridCell
  by_cases hc : x % 50 = 0 ∧ y % 50 = 0 <;> simp [hc, List.countP_cons, isCircle]

theorem countP_gridCell_label (x y : ℕ) :
    (gridCell x y).countP isDrawString =
      if x % 50 = 0 ∧ y % 50 = 0 then 1 else 0 := by
  unfold gridCell
  by_cases hc : x % 50 = 0 ∧ y % 50 = 0 <;>
    simp [hc, List.countP_cons, isDrawString, isCircle]

/-! ## Claim C8: calibration grid contents -/

/-- C8: for every page width `w` and height `h` the grid loop emits exactly
`(⌊w/10⌋+1) * (⌊h/10⌋+1)` dots and exactly `(⌊w/50⌋+1) * (⌊h/50⌋+1)`
coordinate labels; on the renderer's A4 page (210 × 297) that is 22 * 30 =
660 dots and 5 * 6 = 30 labels (the title line is the one further `drawString`
of `calibrationPdfOps`, outside the grid loop). -/
theorem calibration_grid_counts :
    (∀ w h : ℕ,
      (calibGridOps w h).countP isCircle = (w / 10 + 1) * (h / 10 + 1) ∧
      (calibGridOps w h).countP isDrawString = (w / 50 + 1) * (h / 50 + 1)) ∧
    (calibGridOps A4_WIDTH_MM A4_HEIGHT_MM).countP isCircle = 660 ∧
    (calibGridOps A4_WIDTH_MM A4_HEIGHT_MM).countP isDrawString = 30 := by
  have main : ∀ w h : ℕ,
      (calibGridOps w h).countP isCircle = (w / 10 + 1) * (h / 10 + 1) ∧
      (calibGridOps w h).countP isDrawString = (w / 50 + 1) * (h / 50 + 1) := by
    intro w h
    constructor
    · unfold calibGridOps
      rw [countP_flatMap]
      have hinner : ((pyRange (w + 1) 10).map fun x =>
          ((pyRange (h + 1) 10).flatMap fun y => gridCell x y).countP isCircle) =
          (pyRange (w + 1) 10).map fun _ => h / 10 + 1 := by
        refine List.map_congr_left fun x _ => ?_
        rw [countP_flatMap]
        have hcell : ((pyRange (h + 1) 10).map fun y =>
            (gridCell x y).countP isCircle) =
            (pyRange (h + 1) 10).map fun _ => 1 :=
          List.map_congr_left fun y _ => countP_gridCell_circle x y
        rw [hcell, sum_map_const_nat, length_pyRange10]
        ring
      rw [hinner, sum_map_const_nat, length_pyRange10]
    · unfold calibGridOps
      rw [countP_flatMap]
      have hinner : ((pyRange (w + 1) 10).map fun x =>
          ((pyRange (h + 1) 10).flatMap fun y => gridCell x y).countP
            isDrawString) =
          (pyRange (w + 1) 10).map fun x =>
            if x % 50 = 0 then h / 50 + 1 else 0 := by
        refine List.map_congr_left fun x _ => ?_
        rw [countP_flatMap]
        have hcell : ((pyRange (h + 1) 10).map fun y =>
            (gridCell x y).countP isDrawString) =
            (pyRange (h + 1) 10).map fun y =>
              if x % 50 = 0 ∧ y % 50 = 0 then 1 else 0 :=
          List.map_congr_left fun y _ => countP_gridCell_label x y
        rw [hcell]
        by_cases hx : x % 50 = 0
        · simp only [hx, true_and, if_pos]
          rw [sum_map_ite50, countMult50_pyRange]
        · simp [hx]
      rw [hinner, sum_map_ite50_const, countMult50_pyRange]
  refine ⟨main, ?_, ?_⟩
  · rw [(main A4_WIDTH_MM A4_HEIGHT_MM).1]
    norm_num [A4_WIDTH_MM, A4_HEIGHT_MM]
  · rw [(main A4_WIDTH_MM A4_HEIGHT_MM).2]
    norm_num [A4_WIDTH_MM, A4_HEIGHT_MM]

end HarumSemerbak
